import Mathlib

/-!
Shallow embedding of the counseling-session management application
(frontend in `frontend/`, backend service code quoted in
`tickets/PHASE3_TICKETS.md`, `docs/ticket-05-implementation.md` and
`docs/database/database-schema.md`).

Numeric fields that are floats in the source are modelled as `ℚ`;
optional JS values are modelled as `Option`; JSX render results are
modelled as an explicit `RenderResult` enum.
-/

namespace CounselingApp

/-! ## Roles (frontend/types/auth.ts, backend users.role enum) -/

/-- User role enum: role column constrained to counselor/manager/admin
(frontend/types/auth.ts and docs/database/database-schema.md). -/
inductive UserRole
  | counselor
  | manager
  | admin
deriving DecidableEq, Repr

/-- The role hierarchy literal from
frontend/components/auth/protected-route.tsx lines 29 and 54:
`\x7b admin: 3, manager: 2, counselor: 1 \x7d`. -/
def roleHierarchy : UserRole → ℕ
  | .admin => 3
  | .manager => 2
  | .counselor => 1

/-! ## Frontend auth state (frontend/types/auth.ts, lib/auth context) -/

/-- The authenticated user object (frontend/types/auth.ts `User`).
Fields irrelevant to the claims (email, username, full_name, is_active)
are carried as plain data. -/
structure AuthUser where
  id : String
  email : String
  role : UserRole
  clinic_id : Option String
deriving DecidableEq, Repr

/-- The auth context value (`AuthContextType`): `user`, `loading`, and
`isAuthenticated` is derived as `!!user` in the AuthProvider. -/
structure AuthState where
  user : Option AuthUser
  loading : Bool
deriving DecidableEq, Repr

/-- `isAuthenticated: !!user` from the AuthProvider value. -/
def isAuthenticated (a : AuthState) : Bool :=
  a.user.isSome

/-- What a guarded page component renders: the loading spinner, nothing
(`null`), or the wrapped children. -/
inductive RenderResult
  | spinner
  | nothing
  | children
deriving DecidableEq, Repr

/-- Render logic of `ProtectedRoute`
(frontend/components/auth/protected-route.tsx lines 41-63):
loading shows a spinner; unauthenticated renders null; when a
`requiredRole` is given and the user has a role, a user level below the
required level renders null; otherwise the children are rendered. -/
def ProtectedRoute (auth : AuthState) (requiredRole : Option UserRole) : RenderResult :=
  if auth.loading then
    .spinner
  else if ¬ isAuthenticated auth then
    .nothing
  else
    match requiredRole, auth.user.map (fun u => u.role) with
    | some req, some r =>
        if roleHierarchy r < roleHierarchy req then .nothing else .children
    | _, _ => .children

/-! ## apiCall wrapper (frontend/lib/api.ts lines 44-66) -/

/-- `ApiResponse<T>` (frontend/types/api.ts lines 1-6). -/
structure ApiResponse (T : Type) where
  data : Option T
  message : Option String
  error : Option String
  status : ℕ
deriving DecidableEq, Repr

/-- The part of an AxiosError the wrapper reads: `error.response?.status`
and `error.response?.data?.detail`. -/
structure AxiosErrorResponse where
  status : ℕ
  detail : Option String
deriving DecidableEq, Repr

/-- Outcome of running the wrapped request function: a resolved response,
a rejected promise carrying an AxiosError (with optional `response`), or
any other thrown value. -/
inductive RequestOutcome (T : Type)
  | success (data : T) (status : ℕ)
  | axiosError (response : Option AxiosErrorResponse) (message : String)
  | unknownFailure
deriving DecidableEq, Repr

/-- JS `a || b` on an optional string: an absent or empty (falsy) string
falls back to `b`. -/
def jsOr (primary : Option String) (fallback : String) : String :=
  match primary with
  | some s => if s = "" then fallback else s
  | none => fallback

/-- JS `error.response?.status || 500`: absent or zero (falsy) status
falls back to 500. -/
def jsOrStatus (s : Option ℕ) : ℕ :=
  match s with
  | some v => if v = 0 then 500 else v
  | none => 500

/-- `apiCall` (frontend/lib/api.ts lines 44-66): awaits the request and
returns `\x7b data, status \x7d`; on an AxiosError returns
`\x7b error: error.response?.data?.detail || error.message,
status: error.response?.status || 500 \x7d`; on any other thrown value
returns the fixed error with status 500. -/
def apiCall {T : Type} (outcome : RequestOutcome T) : ApiResponse T :=
  match outcome with
  | .success d st =>
      { data := some d, message := none, error := none, status := st }
  | .axiosError resp msg =>
      { data := none
        message := none
        error := some (jsOr (resp.bind (fun r => r.detail)) msg)
        status := jsOrStatus (resp.map (fun r => r.status)) }
  | .unknownFailure =>
      { data := none
        message := none
        error := some "An unexpected error occurred"
        status := 500 }

/-! ## Session status (frontend/types/api.ts lines 16-29) -/

/-- The `Session.status` union type
`recorded | transcribed | analyzed | completed`. -/
inductive SessionStatus
  | recorded
  | transcribed
  | analyzed
  | completed
deriving DecidableEq, Repr

/-- Position of a status in the pipeline order
recorded → transcribed → analyzed → completed. -/
def SessionStatus.rank : SessionStatus → ℕ
  | .recorded => 0
  | .transcribed => 1
  | .analyzed => 2
  | .completed => 3

/-- The intended next pipeline stage for a status (the order stated by
the spec invariant; `completed` is terminal). -/
def SessionStatus.intendedNext : SessionStatus → SessionStatus
  | .recorded => .transcribed
  | .transcribed => .analyzed
  | .analyzed => .completed
  | .completed => .completed

/-- The Session row (frontend/types/api.ts lines 16-29), restricted to
the fields the claims mention. -/
structure Session where
  id : String
  customer_id : String
  counselor_id : String
  status : SessionStatus
  transcript_text : Option String
deriving DecidableEq, Repr

/-- Operations that write a session's status. `updateStatus` is the
free-form `PUT /api/v1/sessions/\x7bid\x7d` reached through
`sessionsApi.updateSession` (frontend/lib/api.ts lines 103-106), whose
body may carry any status value; `transcriptionCompleted` and
`analysisCompleted` are the background tasks' automatic session status
updates described in docs/ticket-05-implementation.md and
tickets/PHASE3_TICKETS.md. -/
inductive SessionOp
  | updateStatus (newStatus : SessionStatus)
  | transcriptionCompleted (text : String)
  | analysisCompleted
deriving DecidableEq, Repr

/-- Effect of one operation on a session row: each operation is a plain
status field write, with no transition guard anywhere in the code. -/
def applyOp (s : Session) : SessionOp → Session
  | .updateStatus st => { s with status := st }
  | .transcriptionCompleted text =>
      { s with status := .transcribed, transcript_text := some text }
  | .analysisCompleted => { s with status := .analyzed }

/-- Effect of a sequence of operations, applied left to right. -/
def applyOps (s : Session) (ops : List SessionOp) : Session :=
  ops.foldl applyOp s

/-! ## Recording upload status (frontend/app/recordings/page.tsx lines 21-31) -/

/-- `Recording.upload_status` union type
`pending | uploading | completed | failed`. -/
inductive UploadStatus
  | pending
  | uploading
  | completed
  | failed
deriving DecidableEq, Repr

/-- Modelled from the spec: the backend recording endpoints
(`app/api/recording/router.py`) are not in the repository snapshot, only
the presigned-URL service and the frontend `Recording` type are. Per the
spec, the server issues an upload slot (row created `pending`), the
client PUTs directly to the object store (no server state change), and
an explicit "complete" endpoint flips the status to completed; a failed
client upload marks the row failed. -/
inductive RecordingOp
  | beginUpload
  | completeCall
  | failUpload
deriving DecidableEq, Repr

/-- Modelled from the spec: effect of a recording operation on
`upload_status`. Only the explicit completion call produces `completed`,
and a `completed` row is terminal (the spec: the status never
regresses). -/
def applyRecordingOp (s : UploadStatus) : RecordingOp → UploadStatus
  | .beginUpload => if s = .pending then .uploading else s
  | .completeCall => .completed
  | .failUpload => if s = .completed then s else .failed

/-! ## Transcription (docs/ticket-05-implementation.md, Whisper service) -/

/-- Task status enum for transcription/analysis tasks
(frontend/app/transcription/page.tsx line 23 plus the `retrying` value
listed in the TranscriptionTask model of the implementation log). -/
inductive TaskStatus
  | pending
  | processing
  | completed
  | failed
  | retrying
deriving DecidableEq, Repr

/-- `TranscriptionSegment` schema (docs/ticket-05-implementation.md):
id, start, end, text, confidence. The `end` field is named `endTime`
because `end` is a Lean keyword. -/
structure TranscriptionSegment where
  id : ℤ
  start : ℚ
  endTime : ℚ
  text : String
  confidence : ℚ
deriving DecidableEq, Repr

/-- A raw segment of the Whisper verbose_json response;
`confidence` is read with `segment.get('confidence', 0.0)`, so it is
optional here. -/
structure WhisperSegment where
  id : ℤ
  start : ℚ
  endTime : ℚ
  text : String
  confidence : Option ℚ
deriving DecidableEq, Repr

/-- The Whisper API response as the parser reads it: `text` is accessed
unconditionally (`response['text']`), the rest with `.get` defaults. -/
structure WhisperResponse where
  text : String
  language : Option String
  duration : Option ℚ
  segments : Option (List WhisperSegment)
deriving DecidableEq, Repr

/-- `TranscriptionResult` schema (docs/ticket-05-implementation.md). -/
structure TranscriptionResult where
  text : String
  language : String
  confidence : ℚ
  duration : ℚ
  segments : List TranscriptionSegment
deriving DecidableEq, Repr

/-- `_calculate_overall_confidence` (docs/ticket-05-implementation.md):
0.0 when there are no segments, otherwise the mean of the segment
confidences. -/
def calculateOverallConfidence (segments : List TranscriptionSegment) : ℚ :=
  if segments = [] then 0
  else (segments.map (fun s => s.confidence)).sum / segments.length

/-- `_parse_whisper_response` (docs/ticket-05-implementation.md):
structures the raw response; missing segment confidences default to 0.0,
language defaults to "ja", duration to 0.0. The response text is stored
verbatim with no emptiness check. -/
def parseWhisperResponse (r : WhisperResponse) : TranscriptionResult :=
  let segments := (r.segments.getD []).map
    (fun s => TranscriptionSegment.mk s.id s.start s.endTime s.text (s.confidence.getD 0))
  { text := r.text
    language := r.language.getD "ja"
    confidence := calculateOverallConfidence segments
    duration := r.duration.getD 0
    segments := segments }

/-- The TranscriptionTask row (model fields listed in the ticket-08
implementation log: status, transcription_text, confidence, retry_count,
error fields), restricted to the fields the claims mention. -/
structure TranscriptionTask where
  id : String
  recording_id : String
  status : TaskStatus
  transcription_text : String
  confidence : ℚ
  retry_count : ℕ
  error_message : Option String
deriving DecidableEq, Repr

/-- Success path of the background transcription task
(docs/ticket-05-implementation.md `transcribe_audio_task`): the parsed
Whisper result is saved on the row and the status set to completed. -/
def completeTranscription (t : TranscriptionTask) (r : WhisperResponse) : TranscriptionTask :=
  let result := parseWhisperResponse r
  { t with
    status := .completed
    transcription_text := result.text
    confidence := result.confidence
    error_message := none }

/-- The fixed retry cap: "Retry Logic: Up to 3 retries with backoff"
(ticket-08 implementation log). -/
def maxRetryCount : ℕ := 3

/-- Modelled from the spec: the backend retry endpoint
(`POST /api/v1/transcription/retry/\x7btask_id\x7d`, app/api/transcribe.py)
is not in the repository snapshot; only its frontend caller
(frontend/app/transcription/page.tsx lines 89-96) and the implementation
log are. Per the spec, retrying a failed task below the retry cap resets
its status to pending and increments `retry_count`; beyond the cap the
task is left failed. -/
def retryTask (t : TranscriptionTask) : TranscriptionTask :=
  if t.status = .failed ∧ t.retry_count < maxRetryCount then
    { t with status := .pending, retry_count := t.retry_count + 1 }
  else t

/-! ## AI analysis (tickets/PHASE3_TICKETS.md, schemas/analysis.py and
AnalysisService._full_analysis) -/

/-- `QuestioningAnalysis` schema (tickets/PHASE3_TICKETS.md lines
143-149). -/
structure QuestioningAnalysis where
  score : ℚ
  open_question_ratio : ℚ
  customer_talk_time_ratio : ℚ
  question_diversity : ℤ
  effective_questions : List String
  improvements : List String
deriving DecidableEq, Repr

/-- `AnxietyHandlingAnalysis` schema (tickets/PHASE3_TICKETS.md lines
151-157). -/
structure AnxietyHandlingAnalysis where
  score : ℚ
  anxiety_points_identified : List String
  empathy_expressions : ℤ
  solution_specificity : ℚ
  anxiety_resolution_confirmed : Bool
  improvements : List String
deriving DecidableEq, Repr

/-- `ClosingAnalysis` schema (tickets/PHASE3_TICKETS.md lines 159-167). -/
structure ClosingAnalysis where
  score : ℚ
  timing_appropriateness : ℚ
  urgency_creation : ℚ
  limitation_usage : ℚ
  price_presentation_method : String
  objection_handling : List String
  contract_probability : ℚ
  improvements : List String
deriving DecidableEq, Repr

/-- `FlowAnalysis` schema (tickets/PHASE3_TICKETS.md lines 169-176). -/
structure FlowAnalysis where
  score : ℚ
  logical_structure : ℚ
  smooth_transitions : ℚ
  customer_pace_consideration : ℚ
  key_point_emphasis : ℚ
  session_satisfaction_prediction : ℚ
  improvements : List String
deriving DecidableEq, Repr

/-- `AnalysisResult` schema (tickets/PHASE3_TICKETS.md lines 178-186). -/
structure AnalysisResult where
  overall_score : ℚ
  questioning : QuestioningAnalysis
  anxiety_handling : AnxietyHandlingAnalysis
  closing : ClosingAnalysis
  flow : FlowAnalysis
  session_summary : String
  key_strengths : List String
  critical_improvements : List String
deriving DecidableEq, Repr

/-- `AnalysisService._full_analysis` (tickets/PHASE3_TICKETS.md lines
257-296) after its four LLM sub-analyses and text-generation calls have
returned: the overall score is the weighted combination
questioning*0.25 + anxiety*0.25 + closing*0.30 + flow*0.20, and the top
3 of the generated suggestions become the critical improvements. -/
def fullAnalysis (questioning : QuestioningAnalysis)
    (anxiety : AnxietyHandlingAnalysis) (closing : ClosingAnalysis)
    (flow : FlowAnalysis) (session_summary : String)
    (key_strengths : List String) (suggestions : List String) : AnalysisResult :=
  { overall_score :=
      questioning.score * (25 / 100) +
      anxiety.score * (25 / 100) +
      closing.score * (30 / 100) +
      flow.score * (20 / 100)
    questioning := questioning
    anxiety_handling := anxiety
    closing := closing
    flow := flow
    session_summary := session_summary
    key_strengths := key_strengths
    critical_improvements := suggestions.take 3 }

/-! ## Audio recorder (frontend/components/recording/AudioRecorder.tsx,
frontend/hooks/useMediaRecorder.ts) -/

/-- `RecordingState` (frontend/hooks/useMediaRecorder.ts lines 10-17),
restricted to the fields the max-duration check reads and writes. -/
structure RecordingState where
  isRecording : Bool
  isPaused : Bool
  duration : ℚ
deriving DecidableEq, Repr

/-- Effect of `handleStopRecording` on the recorder state: MediaRecorder
stops and its onstop handler clears `isRecording`/`isPaused`
(frontend/hooks/useMediaRecorder.ts lines 101-109). -/
def stopRecordingState (s : RecordingState) : RecordingState :=
  { s with isRecording := false, isPaused := false }

/-- Default `maxDuration` prop of AudioRecorder: 3600 seconds
(frontend/components/recording/AudioRecorder.tsx line 24). -/
def defaultMaxDuration : ℚ := 3600

/-- The max-duration effect of AudioRecorder (lines 62-66): whenever
`state.duration >= maxDuration && state.isRecording`, the recording is
stopped; otherwise the state is untouched. -/
def enforceMaxDuration (maxDuration : ℚ) (s : RecordingState) : RecordingState :=
  if maxDuration ≤ s.duration ∧ s.isRecording then stopRecordingState s else s

/-! ## Role-based session list query
(docs/database/database-schema.md, get_user_sessions) -/

namespace Db

/-- A backend user row: id, clinic_id and role
(docs/database/database-schema.md users table). -/
structure User where
  id : String
  clinic_id : String
  role : UserRole
deriving DecidableEq, Repr

/-- A customer row: id and owning clinic. -/
structure Customer where
  id : String
  clinic_id : String
deriving DecidableEq, Repr

/-- A session row as the list query returns it. -/
structure SessionRow where
  id : String
  counselor_id : String
  customer_id : String
deriving DecidableEq, Repr

/-- `get_user_sessions` (docs/database/database-schema.md, access
control section): counselors get only rows whose `counselor_id` equals
their id; managers join customers and keep rows of their own clinic;
admins get every row. -/
def getUserSessions (user : User) (sessions : List SessionRow)
    (customers : List Customer) : List SessionRow :=
  match user.role with
  | .counselor => sessions.filter (fun s => s.counselor_id == user.id)
  | .manager =>
      sessions.filter (fun s =>
        (customers.find? (fun c => c.id == s.customer_id)).any
          (fun c => c.clinic_id == user.clinic_id))
  | .admin => sessions

end Db

/-! ## Theorems -/

/-- Claim C1: for every analysis task whose sub-scores are given, the
stored overall_score equals exactly questioning*0.25 + anxiety*0.25 +
closing*0.30 + flow*0.20, the weighted combination computed by the
full-analysis routine. -/
theorem overall_score_is_weighted_combination
    (q : QuestioningAnalysis) (a : AnxietyHandlingAnalysis)
    (c : ClosingAnalysis) (f : FlowAnalysis)
    (summary : String) (strengths suggestions : List String) :
    (fullAnalysis q a c f summary strengths suggestions).overall_score =
      q.score * (25 / 100) + a.score * (25 / 100) +
      c.score * (30 / 100) + f.score * (20 / 100) := rfl

/-- Claim C7: the four weights sum to 1, and if each of the four
sub-scores lies in [0, 10] then the overall score computed by the
full-analysis routine also lies in [0, 10]. -/
theorem overall_score_in_range
    (q : QuestioningAnalysis) (a : AnxietyHandlingAnalysis)
    (c : ClosingAnalysis) (f : FlowAnalysis)
    (summary : String) (strengths suggestions : List String)
    (hq0 : 0 ≤ q.score) (hq1 : q.score ≤ 10)
    (ha0 : 0 ≤ a.score) (ha1 : a.score ≤ 10)
    (hc0 : 0 ≤ c.score) (hc1 : c.score ≤ 10)
    (hf0 : 0 ≤ f.score) (hf1 : f.score ≤ 10) :
    ((25 / 100 : ℚ) + 25 / 100 + 30 / 100 + 20 / 100 = 1) ∧
    0 ≤ (fullAnalysis q a c f summary strengths suggestions).overall_score ∧
    (fullAnalysis q a c f summary strengths suggestions).overall_score ≤ 10 := by
  refine ⟨by norm_num, ?_, ?_⟩ <;>
    · simp only [fullAnalysis]
      nlinarith

/-- Witness for C7 at concrete sub-scores 8, 6, 9, 7. -/
theorem overall_score_in_range_witness :
    0 ≤ (fullAnalysis ⟨8, 0, 0, 0, [], []⟩ ⟨6, [], 0, 0, true, []⟩
        ⟨9, 0, 0, 0, "", [], 0, []⟩ ⟨7, 0, 0, 0, 0, 0, []⟩ "" [] []).overall_score ∧
    (fullAnalysis ⟨8, 0, 0, 0, [], []⟩ ⟨6, [], 0, 0, true, []⟩
        ⟨9, 0, 0, 0, "", [], 0, []⟩ ⟨7, 0, 0, 0, 0, 0, []⟩ "" [] []).overall_score ≤ 10 :=
  (overall_score_in_range ⟨8, 0, 0, 0, [], []⟩ ⟨6, [], 0, 0, true, []⟩
      ⟨9, 0, 0, 0, "", [], 0, []⟩ ⟨7, 0, 0, 0, 0, 0, []⟩ "" [] []
      (by norm_num) (by norm_num) (by norm_num) (by norm_num)
      (by norm_num) (by norm_num) (by norm_num) (by norm_num)).2

/-- Claim C8: for an authenticated user (once loading has settled), the
wrapped children are rendered iff no requiredRole is given or the user
role's level is at least the required role's level; unauthenticated
users are never shown the children. -/
theorem protected_route_role_gate :
    (∀ (auth : AuthState) (u : AuthUser) (req : Option UserRole),
        auth.loading = false → auth.user = some u →
        (ProtectedRoute auth req = .children ↔
          req = none ∨ ∃ r, req = some r ∧ roleHierarchy r ≤ roleHierarchy u.role)) ∧
    (∀ (auth : AuthState) (req : Option UserRole),
        isAuthenticated auth = false → ProtectedRoute auth req ≠ .children) := by
  constructor
  · intro auth u req hl hu
    obtain ⟨user, loading⟩ := auth
    simp only at hl hu
    subst hl hu
    cases req with
    | none => simp [ProtectedRoute, isAuthenticated]
    | some r =>
        by_cases h : roleHierarchy u.role < roleHierarchy r
        · simp [ProtectedRoute, isAuthenticated, h, Nat.not_le.mpr h]
        · simp [ProtectedRoute, isAuthenticated, h, Nat.not_lt.mp h]
  · intro auth req hna
    obtain ⟨user, loading⟩ := auth
    cases loading with
    | true => simp [ProtectedRoute]
    | false => simp [ProtectedRoute, hna]

/-- Witness for C8: an admin passes a manager gate; an unauthenticated
state never renders the children. -/
theorem protected_route_role_gate_witness :
    ProtectedRoute ⟨some ⟨"u1", "a@clinic.example", .admin, none⟩, false⟩ (some .manager) =
      .children ∧
    ProtectedRoute ⟨none, false⟩ (some .counselor) ≠ .children := by
  constructor
  · exact (protected_route_role_gate.1 ⟨some ⟨"u1", "a@clinic.example", .admin, none⟩, false⟩
      ⟨"u1", "a@clinic.example", .admin, none⟩ (some .manager) rfl rfl).mpr
      (Or.inr ⟨.manager, rfl, by decide⟩)
  · exact protected_route_role_gate.2 ⟨none, false⟩ (some .counselor) rfl

/-- Claim C10: whenever the recorded duration reaches or exceeds
maxDuration while recording is active, the recording is stopped; after
the check runs, an active recording's duration is below maxDuration; and
the default maxDuration is 3600 seconds. -/
theorem max_duration_enforced :
    (∀ (maxD : ℚ) (s : RecordingState),
        maxD ≤ s.duration → s.isRecording = true →
        (enforceMaxDuration maxD s).isRecording = false) ∧
    (∀ (maxD : ℚ) (s : RecordingState),
        (enforceMaxDuration maxD s).isRecording = true →
        (enforceMaxDuration maxD s).duration < maxD) ∧
    defaultMaxDuration = 3600 := by
  refine ⟨?_, ?_, rfl⟩
  · intro maxD s hdur hrec
    simp [enforceMaxDuration, stopRecordingState, hdur, hrec]
  · intro maxD s
    by_cases h : maxD ≤ s.duration ∧ s.isRecording
    · simp [enforceMaxDuration, h, stopRecordingState]
    · simp only [enforceMaxDuration, if_neg h]
      intro hrec
      rcases not_and_or.mp h with h1 | h1
      · exact lt_of_not_le h1
      · exact absurd hrec (by simpa using h1)

/-- Witness for C10: a 3700-second active recording at the 3600-second
default cap is stopped, and a 10-second active recording stays below the
cap. -/
theorem max_duration_enforced_witness :
    (enforceMaxDuration 3600 ⟨true, false, 3700⟩).isRecording = false ∧
    (enforceMaxDuration 3600 ⟨true, false, 10⟩).duration < 3600 := by
  constructor
  · exact max_duration_enforced.1 3600 ⟨true, false, 3700⟩ (by norm_num) rfl
  · exact max_duration_enforced.2.1 3600 ⟨true, false, 10⟩ (by decide)

/-- Claim C2: retrying a failed task below the retry cap of 3 resets its
status to pending and increments retry_count by exactly one; a failed
task whose retry_count exceeds the cap remains failed permanently, under
any further number of retries. -/
theorem retry_failed_task_behavior :
    (∀ t : TranscriptionTask, t.status = .failed → t.retry_count < maxRetryCount →
        (retryTask t).status = .pending ∧
        (retryTask t).retry_count = t.retry_count + 1) ∧
    (∀ t : TranscriptionTask, t.status = .failed → maxRetryCount < t.retry_count →
        ∀ n : ℕ, (retryTask^[n] t).status = .failed) := by
  constructor
  · intro t h1 h2
    unfold retryTask
    rw [if_pos ⟨h1, h2⟩]
    exact ⟨rfl, rfl⟩
  · intro t h1 h2 n
    have hfix : retryTask t = t := by
      unfold retryTask
      rw [if_neg]
      rintro ⟨-, hlt⟩
      exact lt_asymm h2 hlt
    rw [Function.iterate_fixed hfix]
    exact h1

/-- Witness for C2: a failed task with retry_count 1 retries to pending
with retry_count 2; a failed task with retry_count 4 stays failed after
5 further retries. -/
theorem retry_failed_task_behavior_witness :
    ((retryTask ⟨"t1", "r1", .failed, "", 0, 1, some "timeout"⟩).status = .pending ∧
     (retryTask ⟨"t1", "r1", .failed, "", 0, 1, some "timeout"⟩).retry_count = 2) ∧
    (retryTask^[5] ⟨"t2", "r2", .failed, "", 0, 4, some "timeout"⟩).status = .failed := by
  constructor
  · exact retry_failed_task_behavior.1 ⟨"t1", "r1", .failed, "", 0, 1, some "timeout"⟩
      rfl (by norm_num [maxRetryCount])
  · exact retry_failed_task_behavior.2 ⟨"t2", "r2", .failed, "", 0, 4, some "timeout"⟩
      rfl (by norm_num [maxRetryCount]) 5

/-- Claim C3 counterexample: applying the free-form status update with
an earlier status moves a session backwards, so status does not advance
monotonically under every operation sequence. -/
theorem session_status_can_regress :
    (applyOps ⟨"s1", "cust1", "c1", .analyzed, none⟩
        [SessionOp.updateStatus .recorded]).status.rank <
      (Session.mk "s1" "cust1" "c1" .analyzed none).status.rank := by
  decide

/-- Claim C3 amended: the intended pipeline order
recorded → transcribed → analyzed → completed is rank-monotone, but no
operation enforces it: the session update operation writes whatever
status it is given, and some operation strictly lowers the rank. -/
theorem session_status_write_semantics :
    (∀ s : SessionStatus, s.rank ≤ s.intendedNext.rank) ∧
    (∀ (sess : Session) (st : SessionStatus),
        (applyOp sess (SessionOp.updateStatus st)).status = st) ∧
    (∃ (sess : Session) (op : SessionOp),
        (applyOp sess op).status.rank < sess.status.rank) := by
  refine ⟨?_, ?_, ?_⟩
  · intro s
    cases s <;> simp [SessionStatus.rank, SessionStatus.intendedNext]
  · intro sess st
    rfl
  · exact ⟨⟨"s1", "cust1", "c1", .analyzed, none⟩, .updateStatus .recorded, by decide⟩

/-- Claim C5: a pending recording reaches completed only through the
explicit completion call, and a completed recording never changes status
again under any operation. -/
theorem upload_status_transitions :
    (∀ (s : UploadStatus) (op : RecordingOp),
        s = .pending → applyRecordingOp s op = .completed → op = .completeCall) ∧
    (∀ op : RecordingOp, applyRecordingOp .completed op = .completed) := by
  constructor
  · intro s op hs h
    subst hs
    cases op with
    | beginUpload => simp [applyRecordingOp] at h
    | completeCall => rfl
    | failUpload => simp [applyRecordingOp] at h
  · intro op
    cases op <;> rfl

/-- Witness for C5: the completion call on a pending recording is the
completion call, and a completed recording survives a failure write. -/
theorem upload_status_transitions_witness :
    RecordingOp.completeCall = RecordingOp.completeCall ∧
    applyRecordingOp .completed .failUpload = .completed :=
  ⟨upload_status_transitions.1 .pending .completeCall rfl rfl,
   upload_status_transitions.2 .failUpload⟩

/-- Claim C6: every row the session list query returns to a caller with
the counselor role has that caller's id as its counselor_id, whatever
the session and customer tables contain. -/
theorem counselor_sees_only_own_sessions
    (user : Db.User) (sessions : List Db.SessionRow)
    (customers : List Db.Customer) (row : Db.SessionRow)
    (hrole : user.role = .counselor)
    (hmem : row ∈ Db.getUserSessions user sessions customers) :
    row.counselor_id = user.id := by
  unfold Db.getUserSessions at hmem
  rw [hrole] at hmem
  have := List.of_mem_filter hmem
  simpa using this

/-- Witness for C6 on a one-row table owned by the caller. -/
theorem counselor_sees_only_own_sessions_witness :
    (Db.SessionRow.mk "s1" "c1" "cust1") ∈
      Db.getUserSessions ⟨"c1", "cl1", .counselor⟩ [⟨"s1", "c1", "cust1"⟩] [] ∧
    (Db.SessionRow.mk "s1" "c1" "cust1").counselor_id = "c1" :=
  ⟨by decide,
   counselor_sees_only_own_sessions ⟨"c1", "cl1", .counselor⟩
     [⟨"s1", "c1", "cust1"⟩] [] ⟨"s1", "c1", "cust1"⟩ rfl (by decide)⟩

/-- The overall confidence is an average, so it is bounded by the bounds
of the per-segment confidences, and is 0 for an empty segment list. -/
theorem calculateOverallConfidence_bounds (l : List TranscriptionSegment)
    (h : ∀ s ∈ l, 0 ≤ s.confidence ∧ s.confidence ≤ 1) :
    0 ≤ calculateOverallConfidence l ∧ calculateOverallConfidence l ≤ 1 := by
  unfold calculateOverallConfidence
  by_cases hl : l = []
  · simp [hl]
  · rw [if_neg hl]
    have hlen : 0 < (l.length : ℚ) := by
      exact_mod_cast List.length_pos.mpr hl
    have hsum0 : 0 ≤ (l.map (fun s => s.confidence)).sum := by
      refine List.sum_nonneg ?_
      intro x hx
      rw [List.mem_map] at hx
      obtain ⟨a, ha, rfl⟩ := hx
      exact (h a ha).1
    have hsum1 : (l.map (fun s => s.confidence)).sum ≤ (l.length : ℚ) := by
      have := List.sum_le_card_nsmul (l.map (fun s => s.confidence)) 1 ?_
      · simpa using this
      · intro x hx
        rw [List.mem_map] at hx
        obtain ⟨a, ha, rfl⟩ := hx
        exact (h a ha).2
    exact ⟨div_nonneg hsum0 hlen.le, (div_le_one hlen).mpr hsum1⟩

/-- Claim C4 counterexample: completing a transcription task with a
Whisper response whose text is empty and whose single segment reports
confidence 2 yields a completed task with empty transcription_text and
confidence outside [0, 1]: the service stores the response unchecked. -/
theorem completed_task_text_confidence_cex :
    (completeTranscription ⟨"t1", "r1", .processing, "", 0, 0, none⟩
        ⟨"", none, none, some [⟨0, 0, 1, "", some 2⟩]⟩).status = .completed ∧
    (completeTranscription ⟨"t1", "r1", .processing, "", 0, 0, none⟩
        ⟨"", none, none, some [⟨0, 0, 1, "", some 2⟩]⟩).transcription_text = "" ∧
    ¬ (completeTranscription ⟨"t1", "r1", .processing, "", 0, 0, none⟩
        ⟨"", none, none, some [⟨0, 0, 1, "", some 2⟩]⟩).confidence ≤ 1 := by
  refine ⟨rfl, rfl, ?_⟩
  have hc : (completeTranscription ⟨"t1", "r1", .processing, "", 0, 0, none⟩
      ⟨"", none, none, some [⟨0, 0, 1, "", some 2⟩]⟩).confidence = 2 := by
    norm_num [completeTranscription, parseWhisperResponse, calculateOverallConfidence]
  rw [hc]
  norm_num

/-- Claim C4 amended: a completed transcription task stores the API text
verbatim (which may be empty) and its confidence is the mean of the
reported segment confidences, so it lies in [0, 1] whenever every
reported segment confidence does. -/
theorem completed_transcription_confidence_bounds
    (t : TranscriptionTask) (r : WhisperResponse)
    (hconf : ∀ s ∈ r.segments.getD [],
        0 ≤ s.confidence.getD 0 ∧ s.confidence.getD 0 ≤ 1) :
    (completeTranscription t r).status = .completed ∧
    (completeTranscription t r).transcription_text = r.text ∧
    0 ≤ (completeTranscription t r).confidence ∧
    (completeTranscription t r).confidence ≤ 1 := by
  have h2 : ∀ s ∈ (r.segments.getD []).map
      (fun s => TranscriptionSegment.mk s.id s.start s.endTime s.text (s.confidence.getD 0)),
      0 ≤ s.confidence ∧ s.confidence ≤ 1 := by
    intro s hs
    rw [List.mem_map] at hs
    obtain ⟨a, ha, rfl⟩ := hs
    exact hconf a ha
  have hb := calculateOverallConfidence_bounds _ h2
  exact ⟨rfl, rfl, hb.1, hb.2⟩

/-- Witness for C4 (amended) on a response with one half-confidence
segment. -/
theorem completed_transcription_confidence_bounds_witness :
    0 ≤ (completeTranscription ⟨"t1", "r1", .pending, "", 0, 0, none⟩
        ⟨"hello", some "ja", some 10, some [⟨0, 0, 5, "hello", some (1 / 2)⟩]⟩).confidence ∧
    (completeTranscription ⟨"t1", "r1", .pending, "", 0, 0, none⟩
        ⟨"hello", some "ja", some 10, some [⟨0, 0, 5, "hello", some (1 / 2)⟩]⟩).confidence ≤ 1 := by
  have h := completed_transcription_confidence_bounds
    ⟨"t1", "r1", .pending, "", 0, 0, none⟩
    ⟨"hello", some "ja", some 10, some [⟨0, 0, 5, "hello", some (1 / 2)⟩]⟩
    (by
      intro s hs
      simp only [Option.getD, List.mem_singleton] at hs
      subst hs
      norm_num)
  exact ⟨h.2.2.1, h.2.2.2⟩

/-- Claim C9: apiCall is total over request outcomes — every outcome
yields an ApiResponse carrying data or an error; success carries the
data and HTTP status; an Axios error carries the server detail (when
present and non-empty) or the error message, with the response status
(when present and non-zero) or 500; any other thrown value yields the
fixed message with status 500. -/
theorem apiCall_total_spec :
    (∀ (T : Type) (o : RequestOutcome T),
        (apiCall o).data.isSome ∨ (apiCall o).error.isSome) ∧
    (∀ (T : Type) (d : T) (st : ℕ),
        apiCall (.success d st) = ⟨some d, none, none, st⟩) ∧
    (∀ (T : Type) (r : AxiosErrorResponse) (msg detail : String),
        r.detail = some detail → detail ≠ "" →
        (apiCall (T := T) (.axiosError (some r) msg)).error = some detail) ∧
    (∀ (T : Type) (r : AxiosErrorResponse) (msg : String),
        r.detail = none →
        (apiCall (T := T) (.axiosError (some r) msg)).error = some msg) ∧
    (∀ (T : Type) (r : AxiosErrorResponse) (msg : String),
        r.status ≠ 0 →
        (apiCall (T := T) (.axiosError (some r) msg)).status = r.status) ∧
    (∀ (T : Type) (msg : String),
        apiCall (T := T) (.axiosError none msg) = ⟨none, none, some msg, 500⟩) ∧
    (∀ (T : Type),
        apiCall (T := T) .unknownFailure =
          ⟨none, none, some "An unexpected error occurred", 500⟩) := by
  refine ⟨?_, ?_, ?_, ?_, ?_, ?_, ?_⟩
  · intro T o
    cases o <;> simp [apiCall]
  · intro T d st
    rfl
  · intro T r msg detail hd hne
    simp [apiCall, jsOr, hd, hne]
  · intro T r msg hd
    simp [apiCall, jsOr, hd]
  · intro T r msg hst
    simp [apiCall, jsOrStatus, hst]
  · intro T msg
    simp [apiCall, jsOr, jsOrStatus]
  · intro T
    rfl

/-- Witness for C9: a 404 with a detail message surfaces the detail and
the 404; an error response without detail surfaces the error message. -/
theorem apiCall_total_spec_witness :
    (apiCall (T := ℕ) (.axiosError (some ⟨404, some "Not found"⟩) "Request failed")).error =
      some "Not found" ∧
    (apiCall (T := ℕ) (.axiosError (some ⟨404, some "Not found"⟩) "Request failed")).status =
      404 ∧
    (apiCall (T := ℕ) (.axiosError (some ⟨0, none⟩) "boom")).error = some "boom" := by
  refine ⟨?_, ?_, ?_⟩
  · exact apiCall_total_spec.2.2.1 ℕ ⟨404, some "Not found"⟩ "Request failed" "Not found"
      rfl (by decide)
  · exact apiCall_total_spec.2.2.2.2.1 ℕ ⟨404, some "Not found"⟩ "Request failed" (by decide)
  · exact apiCall_total_spec.2.2.2.1 ℕ ⟨0, none⟩ "boom" rfl

end CounselingApp
